import Mathlib

/-!
Verification of the performance-telemetry core in
`src/packages/scan/src/core/notifications/event-tracking.ts`.

Timestamps are JavaScript numbers; all logic verified here is purely
order-theoretic and exact on the values involved, so they are modelled as
rationals.  Payloads that the logic never inspects (`fiberRenders`,
`detailedTiming`, per-entry metadata) are opaque to every operation modelled
here and are omitted from the event record.
-/

/-- The two variants of the `SlowdownEvent` tagged union
(`event-tracking.ts` lines 75-103). -/
inductive EventKind : Type
  | interaction
  | longRender
deriving DecidableEq, Repr

/-- A `SlowdownEvent`: opaque unique id, kind tag, and the interval
`data.startAt .. data.endAt` (lines 75-103).  The meta payload is opaque to
the correlation logic and omitted. -/
structure SlowdownEvent : Type where
  id : String
  kind : EventKind
  startAt : ℚ
  endAt : ℚ
deriving DecidableEq, Repr

/-- The predicate passed to `events.find` inside
`applyOverlapCheckToLongRenderEvent` (lines 174-223): given the long-render
event under scan and a candidate event from the list, it skips long-render
candidates and the event itself, then runs the three case-by-case boundary
checks in source order. -/
def overlapCheck (longRenderEvent other : SlowdownEvent) : Bool :=
  if other.kind = EventKind.longRender then false
  else if other.id = longRenderEvent.id then false
  else if longRenderEvent.startAt ≤ other.startAt ∧
      longRenderEvent.endAt ≤ other.endAt ∧
      longRenderEvent.endAt ≥ other.startAt then true
  else if other.startAt ≤ longRenderEvent.startAt ∧
      other.endAt ≥ longRenderEvent.startAt then true
  else if longRenderEvent.startAt ≤ other.startAt ∧
      longRenderEvent.endAt ≥ other.endAt then true
  else false

/-- The removal-collection loop of `addEvent` (lines 230-237): walks the
event list in order; on the first `interaction` event it aborts the whole of
`addEvent` (the source `return` at line 233), modelled as `none`; otherwise
it runs the overlap scan over `all` for each long-render event and collects
the ids marked for removal (`toRemove`). -/
def collectRemovals (all : List SlowdownEvent) :
    List SlowdownEvent → Option (List String)
  | [] => some []
  | e :: rest =>
    if e.kind = EventKind.interaction then none
    else
      let here : List String :=
        match all.find? (fun ev => overlapCheck e ev) with
        | some _ => [e.id]
        | none => []
      (collectRemovals all rest).map (fun ids => here ++ ids)

/-- The state transformation performed by `toolbarEventStore.actions.addEvent`
(lines 162-248): append the new event, run the removal scan; when the scan
aborts (`return` at line 233) `set` is never reached and the stored state is
unchanged; otherwise the appended list minus the marked ids is stored. -/
def addEventState (prior : List SlowdownEvent) (event : SlowdownEvent) :
    List SlowdownEvent :=
  let events := prior ++ [event]
  match collectRemovals events events with
  | none => prior
  | some toRemove => events.filter (fun e => ¬ e.id ∈ toRemove)

/-- Observable actions performed by one `addEvent` call: a synchronous
listener notification, or the `set` replacing the stored event list. -/
inductive StoreAction : Type
  | notify (listener : ℕ) (event : SlowdownEvent)
  | setEvents (events : List SlowdownEvent)
deriving DecidableEq, Repr

/-- The full observable behaviour of one `addEvent` call (lines 162-248):
first every registered listener is invoked with the raw event (lines
163-165), then — unless the scan aborts at line 233 — the recomputed visible
set is stored.  Listeners are identified by opaque handles. -/
def addEventTrace (listeners : List ℕ) (prior : List SlowdownEvent)
    (event : SlowdownEvent) : List StoreAction :=
  (listeners.map (fun l => StoreAction.notify l event)) ++
    (match collectRemovals (prior ++ [event]) (prior ++ [event]) with
     | none => []
     | some toRemove =>
         [StoreAction.setEvents
           ((prior ++ [event]).filter (fun e => ¬ e.id ∈ toRemove))])

/-- The listener set of `toolbarEventStore` (line 154) is a JavaScript `Set`
iterated in insertion order: `add` appends only when absent (line 251). -/
def addListenerFun (cb : ℕ) (listeners : List ℕ) : List ℕ :=
  if cb ∈ listeners then listeners else listeners ++ [cb]

/-- The unsubscribe closure returned by `addListener` (lines 252-254):
`Set.delete`, removing the one registration of that callback if present. -/
def removeListenerFun (cb : ℕ) (listeners : List ℕ) : List ℕ :=
  listeners.erase cb

/-- The result of one sampler cycle body — the `setTimeout` callback inside
`measure` (lines 303-340): the optionally emitted long-render event, the FPS
estimate, the pruned frame-time window, and the dirty flag after the cycle. -/
structure MeasureResult : Type where
  emitted : Option SlowdownEvent
  fps : ℕ
  frames : List ℚ
  dirty : Bool
deriving DecidableEq, Repr

/-- One sampler cycle body (lines 303-340): compute `duration`, append
`endNow` to the frame window, prune entries older than 1000ms, take the
window length as FPS, emit a long-render event when `duration > 100` and the
task is not dirty, and clear the dirty flag unconditionally (line 336). -/
def measureCycle (isTaskDirty : Bool) (framesDrawnInTheLastSecond : List ℚ)
    (startTime startOrigin endNow endOrigin : ℚ) (newId : String) :
    MeasureResult :=
  let duration := endNow - startTime
  let framesInTheLastSecond :=
    (framesDrawnInTheLastSecond ++ [endNow]).filter
      (fun frameAt => endNow - frameAt ≤ 1000)
  let fps := framesInTheLastSecond.length
  let emitted : Option SlowdownEvent :=
    if duration > 100 ∧ isTaskDirty = false then
      some ⟨newId, EventKind.longRender, startTime + startOrigin,
        endOrigin + endNow⟩
    else none
  ⟨emitted, fps, framesInTheLastSecond, false⟩

/-- The pieces of listening state brought up by `startTimingTracking`
(lines 351-408). -/
inductive Subscription : Type
  | performancePublisher
  | visibilityDirtyListener
  | samplerLoop
  | detailedPointerTiming
  | detailedKeyboardTiming
  | feedListener
deriving DecidableEq, Repr

/-- Everything `startTimingTracking` starts, in source order: the
performance publisher (line 352), the visibility listener installed by
`startDirtyTaskTracking` (line 353), the sampler loop started by
`startLongPipelineTracking` (line 354), the two detailed-timing
subscriptions (lines 386-397) and the feed subscription (line 399). -/
def startSubscriptions : List Subscription :=
  [Subscription.performancePublisher,
   Subscription.visibilityDirtyListener,
   Subscription.samplerLoop,
   Subscription.detailedPointerTiming,
   Subscription.detailedKeyboardTiming,
   Subscription.feedListener]

/-- What the teardown closure returned by `startTimingTracking` actually
unsubscribes (lines 410-415): the four stored unsubscribe handles.
`startDirtyTaskTracking` returns no handle, and the canceller returned by
`startLongPipelineTracking` is discarded at line 354, so neither appears. -/
def teardownSubscriptions : List Subscription :=
  [Subscription.performancePublisher,
   Subscription.detailedPointerTiming,
   Subscription.feedListener,
   Subscription.detailedKeyboardTiming]

/-- The subscriptions still live after the teardown closure runs. -/
def activeAfterStop : List Subscription :=
  startSubscriptions.filter (fun s => ¬ s ∈ teardownSubscriptions)

/-- Modelled from the spec: the `BoundedArray` bounded buffer of
`performance-utils.ts`, which is not under the provided sources (spec §3 and
§4.1): a fixed capacity and the held items, `size() <= C` always intended;
`new BoundedArray(C)` is the empty buffer of capacity `C`. -/
structure BoundedArray (α : Type) : Type where
  capacity : ℕ
  items : List α
deriving Repr

/-- Modelled from the spec: the empty buffer produced by
`new BoundedArray(MAX_CHANNEL_SIZE)` (line 382). -/
def BoundedArray.emptyOf (α : Type) (c : ℕ) : BoundedArray α := ⟨c, []⟩

/-- Platform performance entries staged in channels are opaque to the logic
verified here. -/
structure PerfEntry : Type where
  payload : ℕ
deriving DecidableEq, Repr

/-- Modelled from the spec: the channel registry of `performance-store.ts`
(not under the provided sources, spec §4.1) — a named family of bounded
buffers; `getChannelState(name)` reads the current buffer and
`updateChannelState(name, fn)` replaces that one buffer. -/
def ChannelRegistry : Type := String → BoundedArray PerfEntry

/-- Modelled from the spec: `updateChannelState(name, fn)` replaces only the
named channel with `fn` of its current buffer (spec §4.1). -/
def updateChannelState (channels : ChannelRegistry) (name : String)
    (fn : BoundedArray PerfEntry → BoundedArray PerfEntry) : ChannelRegistry :=
  fun n => if n = name then fn (channels n) else channels n

/-- The observable result of one `onComplete` call: the events it passed to
`toolbarEventStore.actions.addEvent`, and the channel registry afterwards. -/
structure OnCompleteResult : Type where
  emitted : List SlowdownEvent
  channels : ChannelRegistry

/-- The `onComplete` handler inside `startTimingTracking` (lines 356-385):
emit one interaction event to the store (`startAt` the detailed timing's
blocking-start instant, `endAt` now), then read the `recording` channel and,
when it holds any entries, hard-reset it to a fresh empty buffer of capacity
`MAX_CHANNEL_SIZE` (line 380-383).  The constant `MAX_CHANNEL_SIZE` lives in
`performance-store.ts`, outside the provided sources, so it is a parameter.
The `stopListeningForRenders` call (line 374) is an external side effect with
no footprint on this state. -/
def onComplete (maxChannelSize : ℕ) (blockingTimeStart nowTs : ℚ)
    (newId : String) (channels : ChannelRegistry) : OnCompleteResult :=
  let ev : SlowdownEvent :=
    ⟨newId, EventKind.interaction, blockingTimeStart, nowTs⟩
  let existingCompletedInteractions := channels "recording"
  if existingCompletedInteractions.items.length ≠ 0 then
    ⟨[ev], updateChannelState channels "recording"
      (fun _ => BoundedArray.emptyOf PerfEntry maxChannelSize)⟩
  else
    ⟨[ev], channels⟩

/-- Modelled from the spec: the tri-state `interactionStatus` (declared at
lines 40-45; its writers are the detailed-timing instrumentation in
`performance.ts`, which is not under the provided sources).  Spec §3: one of
no-interaction, started (with startedAt), completed (with startedAt and
endedAt). -/
inductive InteractionStatus : Type
  | noInteraction
  | started (startedAt : ℚ)
  | completed (startedAt endedAt : ℚ)
deriving DecidableEq, Repr

/-- Modelled from the spec: the transitions the Timing Orchestrator performs
on `interactionStatus` (spec §3): begin a detailed timing, resolve it, and
the reset afterward. -/
inductive StatusStep : InteractionStatus → InteractionStatus → Prop
  | begins (t : ℚ) :
      StatusStep InteractionStatus.noInteraction (InteractionStatus.started t)
  | resolves (s t : ℚ) :
      StatusStep (InteractionStatus.started s)
        (InteractionStatus.completed s t)
  | resets (s t : ℚ) :
      StatusStep (InteractionStatus.completed s t)
        InteractionStatus.noInteraction

/-- The long-render event of the dedup end-to-end test: id L1, interval
0..500. -/
def L1ev : SlowdownEvent := ⟨"L1", EventKind.longRender, 0, 500⟩

/-- The interaction event of the dedup end-to-end test: id I1, interval
200..300. -/
def I1ev : SlowdownEvent := ⟨"I1", EventKind.interaction, 200, 300⟩

/-- A long-render event over 0..100, for the touching-endpoints overlap
example. -/
def lrTouch : SlowdownEvent := ⟨"L", EventKind.longRender, 0, 100⟩

/-- An interaction event over 100..200, touching `lrTouch` at 100. -/
def itTouch : SlowdownEvent := ⟨"I", EventKind.interaction, 100, 200⟩

/-- A long-render event over 0..10, for the disjoint-intervals example. -/
def lrApart : SlowdownEvent := ⟨"L", EventKind.longRender, 0, 10⟩

/-- An interaction event over 11..20, disjoint from `lrApart`. -/
def itApart : SlowdownEvent := ⟨"I", EventKind.interaction, 11, 20⟩

/-- A concrete channel registry whose `recording` channel holds one stale
entry in a buffer of capacity 3. -/
def chanW : ChannelRegistry := fun _ => ⟨3, [⟨0⟩]⟩

lemma collectRemovals_eq_none (all l : List SlowdownEvent)
    (h : ∃ ev ∈ l, ev.kind = EventKind.interaction) :
    collectRemovals all l = none := by
  induction l with
  | nil => simp at h
  | cons e rest ih =>
    obtain ⟨ev, hmem, hk⟩ := h
    rcases List.mem_cons.mp hmem with rfl | htail
    · simp [collectRemovals, hk]
    · by_cases he : e.kind = EventKind.interaction
      · simp [collectRemovals, he]
      · simp [collectRemovals, he, ih ⟨ev, htail, hk⟩]

lemma collectRemovals_eq_some_nil (all l : List SlowdownEvent)
    (hall : ∀ ev ∈ all, ev.kind ≠ EventKind.interaction)
    (hl : ∀ ev ∈ l, ev.kind ≠ EventKind.interaction) :
    collectRemovals all l = some [] := by
  induction l with
  | nil => simp [collectRemovals]
  | cons e rest ih =>
    have he : e.kind ≠ EventKind.interaction := hl e (List.mem_cons_self e rest)
    have hfind : all.find? (fun ev => overlapCheck e ev) = none := by
      rw [List.find?_eq_none]
      intro x hx
      have hxk : x.kind = EventKind.longRender := by
        cases hxe : x.kind with
        | interaction => exact absurd hxe (hall x hx)
        | longRender => rfl
      simp [overlapCheck, hxk]
    simp [collectRemovals, he, hfind,
      ih (fun ev hev => hl ev (List.mem_cons_of_mem e hev))]

lemma addEventState_of_interaction (prior : List SlowdownEvent)
    (event : SlowdownEvent)
    (h : ∃ ev ∈ prior ++ [event], ev.kind = EventKind.interaction) :
    addEventState prior event = prior := by
  simp [addEventState, collectRemovals_eq_none _ _ h]

lemma addEventState_of_no_interaction (prior : List SlowdownEvent)
    (event : SlowdownEvent)
    (h : ∀ ev ∈ prior ++ [event], ev.kind ≠ EventKind.interaction) :
    addEventState prior event = prior ++ [event] := by
  simp [addEventState, collectRemovals_eq_some_nil _ _ h h]

lemma trace_notify_then_rest (listeners : List ℕ)
    (prior : List SlowdownEvent) (event : SlowdownEvent) :
    ∃ rest, addEventTrace listeners prior event =
        listeners.map (fun l => StoreAction.notify l event) ++ rest ∧
      ∀ a ∈ rest, ∀ l e, a ≠ StoreAction.notify l e := by
  rw [addEventTrace]
  cases h : collectRemovals (prior ++ [event]) (prior ++ [event]) with
  | none => exact ⟨[], by simp⟩
  | some toRemove =>
    refine ⟨_, rfl, ?_⟩
    intro a ha l e
    simp only [List.mem_singleton] at ha
    subst ha
    intro hcon
    cases hcon

lemma count_notify_trace (listeners : List ℕ) (cb : ℕ)
    (prior : List SlowdownEvent) (event : SlowdownEvent)
    (hnd : listeners.Nodup) (hmem : cb ∈ listeners) :
    (addEventTrace listeners prior event).count
      (StoreAction.notify cb event) = 1 := by
  obtain ⟨rest, heq, hno⟩ := trace_notify_then_rest listeners prior event
  rw [heq, List.count_append]
  have hinj : Function.Injective (fun l => StoreAction.notify l event) := by
    intro a b hab
    simpa using hab
  have h1 : (listeners.map (fun l => StoreAction.notify l event)).count
      (StoreAction.notify cb event) = listeners.count cb :=
    List.count_map_of_injective listeners _ hinj cb
  have h2 : rest.count (StoreAction.notify cb event) = 0 := by
    rw [List.count_eq_zero]
    intro hc
    exact hno _ hc cb event rfl
  rw [h1, h2, List.count_eq_one_of_mem hnd hmem]

lemma addListenerFun_idem (cb : ℕ) (listeners : List ℕ) :
    addListenerFun cb (addListenerFun cb listeners) =
      addListenerFun cb listeners := by
  by_cases h : cb ∈ listeners
  · simp [addListenerFun, h]
  · simp [addListenerFun, h]

lemma addListenerFun_nodup (cb : ℕ) (listeners : List ℕ)
    (h : listeners.Nodup) : (addListenerFun cb listeners).Nodup := by
  by_cases hm : cb ∈ listeners
  · simpa [addListenerFun, hm] using h
  · simp [addListenerFun, hm, List.nodup_append, h]

lemma mem_addListenerFun (cb : ℕ) (listeners : List ℕ) :
    cb ∈ addListenerFun cb listeners := by
  by_cases hm : cb ∈ listeners
  · simp [addListenerFun, hm]
  · simp [addListenerFun, hm]

/-- C1: the claim says that inserting long-render L1 over 0..500 into an
empty store and then interaction I1 over 200..300 leaves a visible set
without L1 and with I1.  The code does the opposite: while scanning for
removals, addEvent returns as soon as it reaches an interaction event (the
return at line 233), before set is ever called, so the insertion of I1
leaves the stored set unchanged — the final visible set is exactly the
singleton L1, which still contains L1 and never received I1. -/
theorem c1_early_return_drops_interaction :
    addEventState (addEventState [] L1ev) I1ev = [L1ev] ∧
    L1ev ∈ addEventState (addEventState [] L1ev) I1ev ∧
    I1ev ∉ addEventState (addEventState [] L1ev) I1ev := by
  decide

/-- C2: for a long-render event and an interaction event with well-formed
intervals (startAt ≤ endAt on each side), the disjunction of the three
case-by-case boundary checks run by the overlap scan in addEvent (lines
188-222) holds exactly when the canonical interval-intersection test
s1 ≤ e2 ∧ s2 ≤ e1 holds. -/
theorem c2_overlap_checks_match_canonical (lr other : SlowdownEvent)
    (hlr : lr.startAt ≤ lr.endAt) (hother : other.startAt ≤ other.endAt)
    (hk : other.kind = EventKind.interaction) (hid : other.id ≠ lr.id) :
    overlapCheck lr other = true ↔
      (lr.startAt ≤ other.endAt ∧ other.startAt ≤ lr.endAt) := by
  have hk2 : ¬ other.kind = EventKind.longRender := by
    rw [hk]; intro h; cases h
  rw [overlapCheck, if_neg hk2, if_neg hid]
  constructor
  · intro h
    split_ifs at h with ha hb hc
    · exact ⟨by linarith [ha.1, ha.2.1, ha.2.2], ha.2.2⟩
    · exact ⟨by linarith [hb.1, hb.2], by linarith [hb.1, hb.2]⟩
    · exact ⟨by linarith [hc.1, hc.2], by linarith [hc.1, hc.2]⟩
  · rintro ⟨h1, h2⟩
    split_ifs with ha hb hc
    · rfl
    · rfl
    · rfl
    · exfalso
      rcases le_or_lt lr.startAt other.startAt with hs | hs
      · rcases le_or_lt lr.endAt other.endAt with he | he
        · exact ha ⟨hs, he, h2⟩
        · exact hc ⟨hs, le_of_lt he⟩
      · exact hb ⟨le_of_lt hs, h1⟩

/-- Witness for C2: at the touching intervals 0..100 and 100..200 the
equivalence is realised (and holds with both sides true), while the disjoint
intervals 0..10 and 11..20 give no overlap. -/
theorem c2_overlap_checks_match_canonical_witness :
    (overlapCheck lrTouch itTouch = true ↔
      (lrTouch.startAt ≤ itTouch.endAt ∧ itTouch.startAt ≤ lrTouch.endAt)) ∧
    overlapCheck lrTouch itTouch = true ∧
    overlapCheck lrApart itApart = false :=
  ⟨c2_overlap_checks_match_canonical lrTouch itTouch (by decide) (by decide)
      rfl (by decide),
    by decide, by decide⟩

/-- C3: the claim says the stop function returned by startTimingTracking
reverses all subscriptions and no further events (in particular no further
long-render events) are emitted after it.  The code drops the canceller
returned by startLongPipelineTracking (line 354) and installs the visibility
listener with no removal path, so after the teardown closure runs both are
still live, and a further sampler cycle of duration 150ms with a clean dirty
flag still emits a long-render event. -/
theorem c3_sampler_not_stopped_by_teardown :
    Subscription.samplerLoop ∈ activeAfterStop ∧
    Subscription.visibilityDirtyListener ∈ activeAfterStop ∧
    (measureCycle false [] 0 0 150 0 "t1").emitted =
      some ⟨"t1", EventKind.longRender, 0, 150⟩ := by
  refine ⟨by decide, by decide, ?_⟩
  norm_num [measureCycle]

/-- C4: an addEvent call never removes an interaction event already in the
visible set, and an event of the prior visible set that an addEvent call
does drop can only be a long-render event. -/
theorem c4_interactions_never_evicted (prior : List SlowdownEvent)
    (event ev : SlowdownEvent) (hmem : ev ∈ prior)
    (hkind : ev.kind = EventKind.interaction) :
    ev ∈ addEventState prior event ∧
    ∀ ev2 ∈ prior, ev2 ∉ addEventState prior event →
      ev2.kind = EventKind.longRender := by
  constructor
  · rw [addEventState_of_interaction prior event
      ⟨ev, List.mem_append_left _ hmem, hkind⟩]
    exact hmem
  · intro ev2 hmem2 hnot
    rw [addEventState_of_interaction prior event
      ⟨ev, List.mem_append_left _ hmem, hkind⟩] at hnot
    exact absurd hmem2 hnot

/-- Witness for C4: the interaction I1 already in the visible set survives
the insertion of the long-render L1. -/
theorem c4_interactions_never_evicted_witness :
    I1ev ∈ addEventState [I1ev] L1ev ∧
    ∀ ev2 ∈ [I1ev], ev2 ∉ addEventState [I1ev] L1ev →
      ev2.kind = EventKind.longRender :=
  c4_interactions_never_evicted [I1ev] L1ev I1ev (by decide) (by decide)

/-- C5: when the recording channel is non-empty as onComplete runs, the
handler resets that channel to an empty buffer of the same capacity
(MAX_CHANNEL_SIZE) and still passes exactly one event — an interaction
event — to the store. -/
theorem c5_desync_resets_recording_channel (maxChannelSize : ℕ)
    (blockingTimeStart nowTs : ℚ) (newId : String)
    (channels : ChannelRegistry)
    (hne : (channels "recording").items ≠ [])
    (hcap : (channels "recording").capacity = maxChannelSize) :
    ((onComplete maxChannelSize blockingTimeStart nowTs newId
        channels).channels "recording").items = [] ∧
    ((onComplete maxChannelSize blockingTimeStart nowTs newId
        channels).channels "recording").capacity =
      (channels "recording").capacity ∧
    (onComplete maxChannelSize blockingTimeStart nowTs newId
        channels).emitted.length = 1 ∧
    ∀ e ∈ (onComplete maxChannelSize blockingTimeStart nowTs newId
        channels).emitted, e.kind = EventKind.interaction := by
  have hlen : (channels "recording").items.length ≠ 0 := by
    simpa [List.length_eq_zero] using hne
  simp [onComplete, hlen, updateChannelState, BoundedArray.emptyOf, hcap]

/-- Witness for C5: a registry whose recording channel holds one stale entry
in a capacity-3 buffer is reset to an empty capacity-3 buffer while one
interaction event is emitted. -/
theorem c5_desync_resets_recording_channel_witness :
    ((onComplete 3 5 9 "i1" chanW).channels "recording").items = [] ∧
    ((onComplete 3 5 9 "i1" chanW).channels "recording").capacity =
      (chanW "recording").capacity ∧
    (onComplete 3 5 9 "i1" chanW).emitted.length = 1 ∧
    ∀ e ∈ (onComplete 3 5 9 "i1" chanW).emitted,
      e.kind = EventKind.interaction :=
  c5_desync_resets_recording_channel 3 5 9 "i1" chanW (by decide) rfl

/-- C6: one addEvent call notifies every registered listener with the raw
event before anything is written to the stored visible set, and — the
listener collection being a set — each registered listener is notified
exactly once, whether or not the event survives (or even reaches) the
stored set. -/
theorem c6_listeners_notified_once_before_set (listeners : List ℕ)
    (prior : List SlowdownEvent) (event : SlowdownEvent)
    (hnd : listeners.Nodup) :
    (∃ rest, addEventTrace listeners prior event =
        listeners.map (fun l => StoreAction.notify l event) ++ rest ∧
      ∀ a ∈ rest, ∀ l e, a ≠ StoreAction.notify l e) ∧
    ∀ l ∈ listeners, (addEventTrace listeners prior event).count
      (StoreAction.notify l event) = 1 := by
  refine ⟨trace_notify_then_rest listeners prior event, ?_⟩
  intro l hl
  exact count_notify_trace listeners l prior event hnd hl

/-- Witness for C6: two registered listeners are each notified exactly once
of the long-render event L1, ahead of any state write. -/
theorem c6_listeners_notified_once_before_set_witness :
    (∃ rest, addEventTrace [1, 2] [] L1ev =
        [1, 2].map (fun l => StoreAction.notify l L1ev) ++ rest ∧
      ∀ a ∈ rest, ∀ l e, a ≠ StoreAction.notify l e) ∧
    ∀ l ∈ [1, 2], (addEventTrace [1, 2] [] L1ev).count
      (StoreAction.notify l L1ev) = 1 :=
  c6_listeners_notified_once_before_set [1, 2] [] L1ev (by decide)

/-- C7: in a cycle whose dirty flag is set before the measurement fires, the
sampler emits no long-render event — even at a duration above 100ms — and
the flag is cleared unconditionally, so it is false again for the next
cycle. -/
theorem c7_dirty_flag_suppresses_emission (frames : List ℚ)
    (startTime startOrigin endNow endOrigin : ℚ) (newId : String)
    (hdur : endNow - startTime > 100) :
    (measureCycle true frames startTime startOrigin endNow endOrigin
        newId).emitted = none ∧
    (measureCycle true frames startTime startOrigin endNow endOrigin
        newId).dirty = false := by
  simp [measureCycle]

/-- Witness for C7: a dirty cycle of duration 200ms emits nothing and ends
with the flag cleared. -/
theorem c7_dirty_flag_suppresses_emission_witness :
    ((200 : ℚ) - 0 > 100) ∧
    (measureCycle true [] 0 0 200 0 "w7").emitted = none ∧
    (measureCycle true [] 0 0 200 0 "w7").dirty = false :=
  ⟨by norm_num,
    c7_dirty_flag_suppresses_emission [] 0 0 200 0 "w7" (by norm_num)⟩

/-- C8: each sampler cycle appends the frame-completion timestamp to the
window and keeps exactly the entries within the last 1000ms, the FPS
estimate being the pruned window's length; for the frame timestamps 0, 200,
400 with the cycle completing at 1100 the pruned window is 200, 400, 1100
and the FPS estimate is 3. -/
theorem c8_frame_window_prune_and_fps (d : Bool) (frames : List ℚ)
    (startTime startOrigin endNow endOrigin : ℚ) (newId : String) :
    (∀ f : ℚ,
      f ∈ (measureCycle d frames startTime startOrigin endNow endOrigin
          newId).frames ↔
        (f ∈ frames ++ [endNow] ∧ endNow - f ≤ 1000)) ∧
    (measureCycle d frames startTime startOrigin endNow endOrigin
        newId).fps =
      (measureCycle d frames startTime startOrigin endNow endOrigin
        newId).frames.length ∧
    (measureCycle false [0, 200, 400] 0 0 1100 0 "f").frames =
      [200, 400, 1100] ∧
    (measureCycle false [0, 200, 400] 0 0 1100 0 "f").fps = 3 := by
  refine ⟨?_, rfl, by norm_num [measureCycle], by norm_num [measureCycle]⟩
  intro f
  simp only [measureCycle, List.mem_filter, List.mem_append,
    List.mem_singleton, decide_eq_true_eq]

/-- C9: every transition of the modelled interaction-status lifecycle is one
of the three of spec §3 — no-interaction to started when a detailed timing
begins, started to a completed carrying the same start instant when it
resolves, and completed back to no-interaction on the reset. -/
theorem c9_status_lifecycle (a b : InteractionStatus) (h : StatusStep a b) :
    (a = InteractionStatus.noInteraction ∧
      ∃ t, b = InteractionStatus.started t) ∨
    (∃ s, a = InteractionStatus.started s ∧
      ∃ t, b = InteractionStatus.completed s t) ∨
    (∃ s t, a = InteractionStatus.completed s t ∧
      b = InteractionStatus.noInteraction) := by
  cases h with
  | begins t => exact Or.inl ⟨rfl, t, rfl⟩
  | resolves s t => exact Or.inr (Or.inl ⟨s, rfl, t, rfl⟩)
  | resets s t => exact Or.inr (Or.inr ⟨s, t, rfl, rfl⟩)

/-- Witness for C9: the step beginning a detailed timing at instant 5 is of
the first lifecycle shape. -/
theorem c9_status_lifecycle_witness :
    (InteractionStatus.noInteraction = InteractionStatus.noInteraction ∧
      ∃ t, InteractionStatus.started 5 = InteractionStatus.started t) ∨
    (∃ s, InteractionStatus.noInteraction = InteractionStatus.started s ∧
      ∃ t, InteractionStatus.started 5 = InteractionStatus.completed s t) ∨
    (∃ s t, InteractionStatus.noInteraction =
        InteractionStatus.completed s t ∧
      InteractionStatus.started 5 = InteractionStatus.noInteraction) :=
  c9_status_lifecycle InteractionStatus.noInteraction
    (InteractionStatus.started 5) (StatusStep.begins 5)

/-- C10: registering a callback twice on the toolbar event store leaves it
subscribed once and it is notified exactly once per addEvent; the
unsubscribe closure removes only that callback, keeping every other one
subscribed, and running it again is a no-op. -/
theorem c10_listener_registration_algebra (listeners : List ℕ) (cb : ℕ)
    (prior : List SlowdownEvent) (event : SlowdownEvent)
    (hnd : listeners.Nodup) :
    addListenerFun cb (addListenerFun cb listeners) =
      addListenerFun cb listeners ∧
    (addEventTrace (addListenerFun cb (addListenerFun cb listeners)) prior
        event).count (StoreAction.notify cb event) = 1 ∧
    (∀ d, d ≠ cb → (d ∈ removeListenerFun cb listeners ↔ d ∈ listeners)) ∧
    cb ∉ removeListenerFun cb listeners ∧
    removeListenerFun cb (removeListenerFun cb listeners) =
      removeListenerFun cb listeners := by
  refine ⟨addListenerFun_idem cb listeners, ?_, ?_, ?_, ?_⟩
  · rw [addListenerFun_idem]
    exact count_notify_trace _ cb prior event
      (addListenerFun_nodup cb listeners hnd) (mem_addListenerFun cb listeners)
  · intro d hd
    exact List.mem_erase_of_ne hd
  · exact hnd.not_mem_erase
  · exact List.erase_of_not_mem hnd.not_mem_erase

/-- Witness for C10: callback 7 double-registered next to callback 5 is
notified once of the interaction event I1, and double-unsubscribing it
leaves 5 untouched. -/
theorem c10_listener_registration_algebra_witness :
    addListenerFun 7 (addListenerFun 7 [5]) = addListenerFun 7 [5] ∧
    (addEventTrace (addListenerFun 7 (addListenerFun 7 [5])) []
        I1ev).count (StoreAction.notify 7 I1ev) = 1 ∧
    (∀ d, d ≠ 7 → (d ∈ removeListenerFun 7 [5] ↔ d ∈ [5])) ∧
    7 ∉ removeListenerFun 7 [5] ∧
    removeListenerFun 7 (removeListenerFun 7 [5]) =
      removeListenerFun 7 [5] :=
  c10_listener_registration_algebra [5] 7 [] I1ev (by decide)
